import Mathlib

/-!
Verification of the movie review and recommendation web application
(`src/models.py`, `src/app.py`) against its natural-language specification.

The relational state is embedded as explicit lists of table rows; each SQL
query or stored-procedure call of the source is translated into a list
computation over that state, and each Flask handler into a pure function
from session plus parsed form data to an outcome together with the list of
persistence and session effects it would issue.  Machine floats (review
scores, preference weights) are modelled as rationals.
-/

/-- Row of the `Reviews` table: rating in 0..10, free text, authored by one
user, attached to a movie or a show through nullable foreign keys. -/
structure ReviewRow where
  review_id : Nat
  user_id : Nat
  movie_id : Option Nat := none
  show_id : Option Nat := none
  score : ℚ
  title : String := ""
  content : String := ""
  deriving DecidableEq

/-- Row of the `Movie` table.  Catalog attributes that every query merely
copies through (`Description`, `Year`, `Length`, `Age_Rating`) are carried
as plain data fields. -/
structure MovieRow where
  movie_id : Nat
  title : String
  description : String := ""
  year : Int := 0
  length : Nat := 0
  age_rating : String := ""
  deriving DecidableEq

/-- Row of the `TV_Show` table (fields used by the analytics union query). -/
structure ShowRow where
  show_id : Nat
  title : String
  description : String := ""
  year : Int := 0
  age_rating : String := ""
  deriving DecidableEq

/-- Row of the `User` table (fields used by the handlers under proof). -/
structure UserRow where
  user_id : Nat
  name : String
  email : String
  password_hash : String := ""
  role : String := "normal_user"
  deriving DecidableEq

/-- Row of the `Friends` table: an ordered pair of user ids. -/
structure FriendRow where
  user_id1 : Nat
  user_id2 : Nat
  deriving DecidableEq

/-- Row of the `Movie_Genre` join table. -/
structure MovieGenreRow where
  movie_id : Nat
  genre_id : Nat
  deriving DecidableEq

/-- Row of the `User_Preferences` table: precomputed weight per user and
genre. -/
structure PrefRow where
  user_id : Nat
  genre_id : Nat
  preference_score : ℚ
  deriving DecidableEq

/-- The relational database state: one list of rows per table that the
claims under verification touch. -/
structure DB where
  users : List UserRow := []
  movies : List MovieRow := []
  shows : List ShowRow := []
  reviews : List ReviewRow := []
  friends : List FriendRow := []
  movie_genres : List MovieGenreRow := []
  user_preferences : List PrefRow := []
  deriving DecidableEq

/-- SQL `AVG` aggregate: `NULL` on the empty bag, otherwise the mean. -/
def sqlAvg (l : List ℚ) : Option ℚ :=
  if l.isEmpty then none else some (l.sum / l.length)

/-- View an SQL nullable numeric as a `WithBot ℚ` so that MySQL's rule
"NULL sorts below every value" is the lattice bottom. -/
def toWithBot (o : Option ℚ) : WithBot ℚ :=
  match o with
  | none => ⊥
  | some q => (q : WithBot ℚ)

/-- Reviews attached to a given movie (`r.Movie_ID = mid`). -/
def reviewsOfMovie (db : DB) (mid : Nat) : List ReviewRow :=
  db.reviews.filter (fun r => decide (r.movie_id = some mid))

/-- Reviews attached to a given show (`r.Show_ID = sid`). -/
def reviewsOfShow (db : DB) (sid : Nat) : List ReviewRow :=
  db.reviews.filter (fun r => decide (r.show_id = some sid))

/-- Embeds the subquery
`SELECT Movie_ID FROM Reviews WHERE User_ID = uid AND Movie_ID IS NOT NULL`
used by both recommendation queries for their `NOT IN` exclusion. -/
def reviewedMovieIds (db : DB) (uid : Nat) : List Nat :=
  (db.reviews.filter (fun r => decide (r.user_id = uid))).filterMap (fun r => r.movie_id)

/-- Specification-side predicate: the user has already written a review for
this movie ("movies the user has not yet reviewed" is its negation). -/
def userHasReviewedMovie (db : DB) (uid mid : Nat) : Prop :=
  ∃ r ∈ db.reviews, r.user_id = uid ∧ r.movie_id = some mid

instance (db : DB) (uid mid : Nat) : Decidable (userHasReviewedMovie db uid mid) :=
  List.decidableBEx _ db.reviews

theorem mem_reviewedMovieIds (db : DB) (uid mid : Nat) :
    mid ∈ reviewedMovieIds db uid ↔ userHasReviewedMovie db uid mid := by
  simp only [reviewedMovieIds, userHasReviewedMovie, List.mem_filterMap, List.mem_filter,
    decide_eq_true_eq]
  constructor
  · rintro ⟨r, ⟨hr, hu⟩, hm⟩
    exact ⟨r, hr, hu, hm⟩
  · rintro ⟨r, hr, hu, hm⟩
    exact ⟨r, ⟨hr, hu⟩, hm⟩

/-- Case-insensitive character comparison, modelling the connection's
`utf8mb4_unicode_ci` collation (ASCII case folding). -/
def charEqCI (a b : Char) : Bool :=
  a.toLower == b.toLower

/-- MySQL `LIKE` pattern matching: `%` matches any sequence (the rest of the
pattern must match some suffix of the input), `_` matches any single
character, a backslash escapes the following pattern character; literal
characters compare case-insensitively under the `_ci` collation. -/
def likeMatch : List Char → List Char → Bool
  | [], s => s.isEmpty
  | '%' :: ps, s => (List.tails s).any (fun t => likeMatch ps t)
  | '_' :: _, [] => false
  | '_' :: ps, _ :: t => likeMatch ps t
  | '\\' :: p :: ps, c :: t => charEqCI p c && likeMatch ps t
  | '\\' :: _ :: _, [] => false
  | ['\\'], [c] => charEqCI '\\' c
  | ['\\'], _ => false
  | p :: ps, c :: t => charEqCI p c && likeMatch ps t
  | _ :: _, [] => false

/-- The SQL predicate `s LIKE pat`. -/
def sqlLike (s pat : String) : Bool :=
  likeMatch pat.toList s.toList

/-- Python truthiness of an optional string form field: present and
non-empty. -/
def truthyStr (s : Option String) : Bool :=
  match s with
  | none => false
  | some x => !x.isEmpty

/-- Python truthiness of an optional int form field: present and non-zero. -/
def truthyInt (n : Option Int) : Bool :=
  match n with
  | none => false
  | some x => decide (x ≠ 0)

/-- Python truthiness of an optional numeric (float-typed) form field:
present and non-zero. -/
def truthyRat (q : Option ℚ) : Bool :=
  match q with
  | none => false
  | some x => decide (x ≠ 0)

/-- WHERE clause assembled by `Movie.get_movies_filtered`: the genre join
plus `mg.Genre_ID = %s` when a genre filter is truthy, and
`m.Title LIKE %search%` when a text filter is truthy (AND semantics). -/
def movieMatchesFilters (db : DB) (genre_id : Option Nat) (search_query : Option String)
    (m : MovieRow) : Bool :=
  (match genre_id with
   | none => true
   | some g =>
       if g = 0 then true
       else db.movie_genres.any (fun mg => decide (mg.movie_id = m.movie_id ∧ mg.genre_id = g))) &&
  (if truthyStr search_query then
      sqlLike m.title ("%" ++ search_query.getD "" ++ "%")
    else true)

/-- ORDER BY `m.Title` under the case-insensitive collation: compare
lower-cased titles. -/
def titleBefore (a b : MovieRow) : Prop :=
  a.title.toLower ≤ b.title.toLower

instance : DecidableRel titleBefore :=
  fun a b => inferInstanceAs (Decidable (a.title.toLower ≤ b.title.toLower))

instance : IsTotal MovieRow titleBefore :=
  ⟨fun a b => le_total a.title.toLower b.title.toLower⟩

instance : IsTrans MovieRow titleBefore :=
  ⟨fun _ _ _ h h2 => le_trans h h2⟩

/-- Embeds `Movie.get_movies_filtered` (`src/models.py`): movies joined with
reviews (aggregates elided — they only annotate the returned rows), filtered
by the optional genre association and `LIKE` clauses, grouped by movie and
ordered by title.  The genre join can only multiply rows of one group, so
membership of the grouped result is the filter below. -/
def get_movies_filtered (db : DB) (genre_id : Option Nat) (search_query : Option String) :
    List MovieRow :=
  List.insertionSort titleBefore
    (db.movies.filter (movieMatchesFilters db genre_id search_query))

/-- Embeds `Friendship.are_friends` (`src/models.py`): `COUNT(*)` of the
`Friends` rows matching either orientation of the pair, compared with 0. -/
def are_friends (db : DB) (user1_id user2_id : Nat) : Bool :=
  decide (0 < (db.friends.filter (fun f =>
    decide ((f.user_id1 = user1_id ∧ f.user_id2 = user2_id) ∨
            (f.user_id1 = user2_id ∧ f.user_id2 = user1_id)))).length)

/-- User_Preferences rows joined to a movie by
`up.User_ID = uid AND up.Genre_ID IN (SELECT Genre_ID FROM Movie_Genre WHERE Movie_ID = mid)`. -/
def prefRowsForMovie (db : DB) (uid mid : Nat) : List PrefRow :=
  db.user_preferences.filter (fun up =>
    decide (up.user_id = uid) &&
    db.movie_genres.any (fun mg => decide (mg.movie_id = mid ∧ mg.genre_id = up.genre_id)))

/-- Row set of one `GROUP BY m.Movie_ID` group in
`Recommendation.get_movie_recommendations`: `Movie LEFT JOIN Reviews LEFT
JOIN User_Preferences`.  Each LEFT JOIN side degenerates to a single NULL
row when it matches nothing, so the group is the cartesian product of the
two (possibly NULL-extended) sides. -/
def recJoinedRows (db : DB) (uid mid : Nat) : List (Option ReviewRow × Option PrefRow) :=
  let rs := (reviewsOfMovie db mid).map some
  let rs := if rs.isEmpty then [none] else rs
  let ps := (prefRowsForMovie db uid mid).map some
  let ps := if ps.isEmpty then [none] else ps
  rs.flatMap (fun r => ps.map (fun p => (r, p)))

/-- The `AVG(r.Score)` aggregate of one recommendation group (NULLs from the
LEFT JOIN are ignored by SQL aggregates). -/
def recAvgRating (db : DB) (uid mid : Nat) : Option ℚ :=
  sqlAvg ((recJoinedRows db uid mid).filterMap (fun rp => rp.1.map (fun r => r.score)))

/-- The `COUNT(r.Review_ID)` aggregate of one recommendation group: number
of joined rows with a non-NULL review. -/
def recReviewCount (db : DB) (uid mid : Nat) : Nat :=
  ((recJoinedRows db uid mid).filterMap (fun rp => rp.1)).length

/-- The `COALESCE(MAX(up.Preference_Score), 0)` aggregate of one
recommendation group. -/
def max_preference_score (db : DB) (uid mid : Nat) : ℚ :=
  ((((recJoinedRows db uid mid).filterMap (fun rp => rp.2)).map
    (fun up => up.preference_score)).max?).getD 0

/-- Sort key of `ORDER BY max_preference_score DESC, AVG(r.Score) DESC,
COUNT(r.Review_ID) DESC` (lexicographic; NULL average sorts last). -/
abbrev RecKey : Type := ℚ ×ₗ ((WithBot ℚ) ×ₗ ℕ)

/-- Key of one movie in the preference-based recommendation ordering. -/
def movieRecKey (db : DB) (uid mid : Nat) : RecKey :=
  toLex (max_preference_score db uid mid,
    toLex (toWithBot (recAvgRating db uid mid), recReviewCount db uid mid))

/-- a precedes b in the preference-based recommendation ordering
(descending key comparison). -/
def movieRecBefore (db : DB) (uid : Nat) (a b : MovieRow) : Prop :=
  movieRecKey db uid b.movie_id ≤ movieRecKey db uid a.movie_id

instance (db : DB) (uid : Nat) : DecidableRel (movieRecBefore db uid) :=
  fun a b =>
    inferInstanceAs (Decidable (movieRecKey db uid b.movie_id ≤ movieRecKey db uid a.movie_id))

instance (db : DB) (uid : Nat) : IsTotal MovieRow (movieRecBefore db uid) :=
  ⟨fun a b => le_total (movieRecKey db uid b.movie_id) (movieRecKey db uid a.movie_id)⟩

instance (db : DB) (uid : Nat) : IsTrans MovieRow (movieRecBefore db uid) :=
  ⟨fun _ _ _ h h2 => le_trans h2 h⟩

/-- Embeds `Recommendation.get_movie_recommendations` (`src/models.py`):
movies not in the user's reviewed set, ordered by the three-part descending
key, truncated to `LIMIT limit`.  (`SELECT DISTINCT` is a no-op here: after
`GROUP BY m.Movie_ID` each group is a single row.) -/
def get_movie_recommendations (db : DB) (uid limit : Nat) : List MovieRow :=
  (List.insertionSort (movieRecBefore db uid)
    (db.movies.filter (fun m => !decide (m.movie_id ∈ reviewedMovieIds db uid)))).take limit

/-- Friends rows joined to one review in
`Recommendation.get_friend_recommendations`:
`(f.User_ID1 = uid AND f.User_ID2 = r.User_ID) OR (f.User_ID2 = uid AND f.User_ID1 = r.User_ID)`. -/
def friendLinkRows (db : DB) (uid ruser : Nat) : List FriendRow :=
  db.friends.filter (fun f =>
    decide ((f.user_id1 = uid ∧ f.user_id2 = ruser) ∨
            (f.user_id2 = uid ∧ f.user_id1 = ruser)))

/-- The CASE expression projecting the friend id out of a Friends row:
`CASE WHEN f.User_ID1 = uid THEN f.User_ID2 WHEN f.User_ID2 = uid THEN f.User_ID1 END`. -/
def friendIdCase (uid : Nat) (f : FriendRow) : Option Nat :=
  if f.user_id1 = uid then some f.user_id2
  else if f.user_id2 = uid then some f.user_id1
  else none

/-- Row set of one `GROUP BY m.Movie_ID` group in
`Recommendation.get_friend_recommendations`: the inner joins
`Movie JOIN Reviews JOIN Friends` restricted by `r.Score >= 7.0`. -/
def friendRecJoinedRows (db : DB) (uid mid : Nat) : List (ReviewRow × FriendRow) :=
  ((reviewsOfMovie db mid).filter (fun r => decide ((7 : ℚ) ≤ r.score))).flatMap
    (fun r => (friendLinkRows db uid r.user_id).map (fun f => (r, f)))

/-- The `COUNT(DISTINCT CASE ... END) as friend_likes` aggregate of one
friend-recommendation group. -/
def friend_likes (db : DB) (uid mid : Nat) : Nat :=
  (((friendRecJoinedRows db uid mid).filterMap (fun rf => friendIdCase uid rf.2)).dedup).length

/-- The `ROUND(AVG(r.Score), 2) as avg_rating` aggregate of one
friend-recommendation group: the average is taken over the joined rows,
which the `WHERE r.Score >= 7.0` clause has already restricted to the
friends' qualifying reviews. -/
def frAvgRating (db : DB) (uid mid : Nat) : Option ℚ :=
  sqlAvg ((friendRecJoinedRows db uid mid).map (fun rf => rf.1.score))

/-- Sort key of `ORDER BY friend_likes DESC, avg_rating DESC`. -/
abbrev FriendRecKey : Type := ℕ ×ₗ WithBot ℚ

/-- Key of one movie in the friend-activity recommendation ordering. -/
def friendRecKey (db : DB) (uid mid : Nat) : FriendRecKey :=
  toLex (friend_likes db uid mid, toWithBot (frAvgRating db uid mid))

/-- a precedes b in the friend-activity recommendation ordering. -/
def friendRecBefore (db : DB) (uid : Nat) (a b : MovieRow) : Prop :=
  friendRecKey db uid b.movie_id ≤ friendRecKey db uid a.movie_id

instance (db : DB) (uid : Nat) : DecidableRel (friendRecBefore db uid) :=
  fun a b =>
    inferInstanceAs (Decidable (friendRecKey db uid b.movie_id ≤ friendRecKey db uid a.movie_id))

instance (db : DB) (uid : Nat) : IsTotal MovieRow (friendRecBefore db uid) :=
  ⟨fun a b => le_total (friendRecKey db uid b.movie_id) (friendRecKey db uid a.movie_id)⟩

instance (db : DB) (uid : Nat) : IsTrans MovieRow (friendRecBefore db uid) :=
  ⟨fun _ _ _ h h2 => le_trans h2 h⟩

/-- Embeds `Recommendation.get_friend_recommendations` (`src/models.py`):
movies not reviewed by the user that the inner joins keep (at least one
friend review with score at least 7.0), ordered by the two-part descending
key, truncated to `LIMIT limit`. -/
def get_friend_recommendations (db : DB) (uid limit : Nat) : List MovieRow :=
  (List.insertionSort (friendRecBefore db uid)
    (db.movies.filter (fun m =>
      !decide (m.movie_id ∈ reviewedMovieIds db uid) &&
      !(friendRecJoinedRows db uid m.movie_id).isEmpty))).take limit

/-- Persistence and session side effects a handler can issue. -/
inductive Effect where
  | setSession (key value : String)
  | createUser (name email : String)
  | createReview (uid : Nat) (score : ℚ) (title content : String)
      (movie_id show_id : Option Int)
  | updateReview (review_id : Nat) (score : ℚ) (title content : String)
  | deleteReview (review_id : Nat)
  deriving DecidableEq

/-- Parsed form data of the review create and edit screens.  `score` is the
result of `request.form.get('score', type=float)`; `movie_id` and `show_id`
are the results of the handler's `int(...)` parses (None on absence or
parse failure). -/
structure ReviewForm where
  score : Option ℚ := none
  title : Option String := none
  content : Option String := none
  movie_id : Option Int := none
  show_id : Option Int := none
  deriving DecidableEq

/-- Outcome of the `add_review` POST handler. -/
inductive AddReviewOutcome where
  | redirectLogin
  | rejectedBothTargets
  | rejectedNoTarget
  | rejectedMissingFields
  | rejectedScoreRange
  | submitted
  deriving DecidableEq

/-- Embeds the POST branch of the `add_review` handler (`src/app.py`): the
`login_required` gate, then the handler's validation chain in source order,
and only past all of it the `Review.create_review` persistence call. -/
def add_review (sessionUser : Option Nat) (f : ReviewForm) :
    AddReviewOutcome × List Effect :=
  match sessionUser with
  | none => (.redirectLogin, [])
  | some uid =>
    if truthyInt f.movie_id && truthyInt f.show_id then (.rejectedBothTargets, [])
    else if !truthyInt f.movie_id && !truthyInt f.show_id then (.rejectedNoTarget, [])
    else if !(truthyRat f.score && truthyStr f.title) then (.rejectedMissingFields, [])
    else
      let q := f.score.getD 0
      if decide (q < 0) || decide (10 < q) then (.rejectedScoreRange, [])
      else
        (.submitted,
          [.createReview uid q (f.title.getD "") (f.content.getD "")
            (if truthyInt f.movie_id then f.movie_id else none)
            (if truthyInt f.show_id then f.show_id else none)])

/-- Embeds `Review.get_review_by_id` (`src/models.py`): first row of the
reviews matching the id. -/
def get_review_by_id (db : DB) (review_id : Nat) : Option ReviewRow :=
  (db.reviews.filter (fun r => decide (r.review_id = review_id))).head?

/-- Outcome of the review edit and delete handlers. -/
inductive ReviewMutationOutcome where
  | notFound
  | notOwner
  | rejectedMissingFields
  | rejectedScoreRange
  | success
  deriving DecidableEq

/-- Embeds the `edit_review` handler (`src/app.py`): fetch, not-found check,
ownership check, then the POST validation chain and the
`Review.update_review` persistence call. -/
def edit_review (db : DB) (sessionUser review_id : Nat) (f : ReviewForm) :
    ReviewMutationOutcome × List Effect :=
  match get_review_by_id db review_id with
  | none => (.notFound, [])
  | some r =>
    if r.user_id ≠ sessionUser then (.notOwner, [])
    else if !(truthyRat f.score && truthyStr f.title) then (.rejectedMissingFields, [])
    else
      let q := f.score.getD 0
      if decide (q < 0) || decide (10 < q) then (.rejectedScoreRange, [])
      else (.success, [.updateReview review_id q (f.title.getD "") (f.content.getD "")])

/-- Embeds the `delete_review` handler (`src/app.py`): fetch, not-found
check, ownership check, then the `Review.delete_review` persistence call. -/
def delete_review (db : DB) (sessionUser review_id : Nat) :
    ReviewMutationOutcome × List Effect :=
  match get_review_by_id db review_id with
  | none => (.notFound, [])
  | some r =>
    if r.user_id ≠ sessionUser then (.notOwner, [])
    else (.success, [.deleteReview review_id])

/-- Embeds `User.get_user_by_email` (`src/models.py`). -/
def get_user_by_email (db : DB) (email : String) : Option UserRow :=
  (db.users.filter (fun u => decide (u.email = email))).head?

/-- Parsed form data of the registration screen. -/
structure RegisterForm where
  name : Option String := none
  email : Option String := none
  password : Option String := none
  confirm_password : Option String := none
  age : Option Int := none
  gender : Option String := none
  role : String := "normal_user"
  deriving DecidableEq

/-- Outcome of the `register` POST handler. -/
inductive RegisterOutcome where
  | rejectedMissingFields
  | rejectedPasswordMismatch
  | rejectedAge
  | rejectedEmailTaken
  | submitted
  deriving DecidableEq

/-- Embeds the POST branch of the `register` handler (`src/app.py`): the
validation chain in source order, the duplicate-email lookup, and only then
the `User.create_user` call.  No branch of the handler writes to the
session. -/
def register (db : DB) (f : RegisterForm) : RegisterOutcome × List Effect :=
  if !(truthyStr f.name && truthyStr f.email && truthyStr f.password &&
        truthyStr f.confirm_password) then
    (.rejectedMissingFields, [])
  else if f.password ≠ f.confirm_password then (.rejectedPasswordMismatch, [])
  else if truthyInt f.age &&
      (decide (f.age.getD 0 < 13) || decide ((120 : Int) < f.age.getD 0)) then
    (.rejectedAge, [])
  else
    match get_user_by_email db (f.email.getD "") with
    | some _ => (.rejectedEmailTaken, [])
    | none => (.submitted, [.createUser (f.name.getD "") (f.email.getD "")])

/-- Modelled from the spec: the stored procedure `sp_add_review` itself is
not under `src/` — only its caller `Review.create_review` is — so its write
behaviour is taken from the specification, which states "at most one review
per (user, content item) pair" as an invariant "enforced at write time"
whose "violated attempts fail" (spec sections 3 and 8).  The procedure
therefore raises on a duplicate (user, target) pair and otherwise inserts
the new review row. -/
def sp_add_review (db : DB) (uid : Nat) (mid sid : Option Nat) (score : ℚ)
    (title content : String) (newId : Nat) : Except String DB :=
  if db.reviews.any (fun r =>
      decide (r.user_id = uid ∧
        ((mid ≠ none ∧ r.movie_id = mid) ∨ (sid ≠ none ∧ r.show_id = sid)))) then
    Except.error "duplicate review for this user and content item"
  else
    Except.ok { db with
      reviews := db.reviews ++
        [{ review_id := newId, user_id := uid, movie_id := mid, show_id := sid,
           score := score, title := title, content := content }] }

/-- Embeds `DatabaseConnection.execute_procedure` (`src/models.py`): commit
the procedure's writes on success; on a database error roll back — the
state reverts to the state before the call — and re-raise. -/
def execute_procedure (db : DB) (proc : DB → Except String DB) :
    Except String Unit × DB :=
  match proc db with
  | Except.ok db2 => (Except.ok (), db2)
  | Except.error e => (Except.error e, db)

/-- Embeds `Review.create_review` (`src/models.py`): invoke `sp_add_review`
through `execute_procedure`, propagating the raised error. -/
def create_review (db : DB) (uid : Nat) (score : ℚ) (title content : String)
    (mid sid : Option Nat) (newId : Nat) : Except String Unit × DB :=
  execute_procedure db (fun d => sp_add_review d uid mid sid score title content newId)

/-- Embeds `Movie.get_movie_by_id` (`src/models.py`): the movie row together
with its aggregate annotations `review_count`, `avg_rating` and the column
`(COUNT(r.Review_ID) * 0.7 + AVG(r.Score) * 0.3) as popularity_score` (NULL
when the movie has no reviews, since `AVG` is NULL and the sum propagates
it). -/
def get_movie_by_id (db : DB) (mid : Nat) :
    Option (MovieRow × Nat × Option ℚ × Option ℚ) :=
  ((db.movies.filter (fun m => decide (m.movie_id = mid))).head?).map (fun m =>
    (m, (reviewsOfMovie db mid).length,
      sqlAvg ((reviewsOfMovie db mid).map (fun r => r.score)),
      (sqlAvg ((reviewsOfMovie db mid).map (fun r => r.score))).map (fun a =>
        ((reviewsOfMovie db mid).length : ℚ) * (7 / 10) + a * (3 / 10))))

/-- Row of the analytics popularity ranking. -/
structure PopularityRow where
  content_id : Nat
  title : String
  review_count : Nat
  popularity_score : ℚ
  content_type : String
  deriving DecidableEq

/-- a precedes b under `ORDER BY popularity_score DESC`. -/
def popBefore (a b : PopularityRow) : Prop :=
  b.popularity_score ≤ a.popularity_score

instance : DecidableRel popBefore :=
  fun a b => inferInstanceAs (Decidable (b.popularity_score ≤ a.popularity_score))

instance : IsTotal PopularityRow popBefore :=
  ⟨fun a b => le_total b.popularity_score a.popularity_score⟩

instance : IsTrans PopularityRow popBefore :=
  ⟨fun _ _ _ h h2 => le_trans h2 h⟩

/-- Embeds `Analytics.get_popular_movies` (`src/models.py`): the UNION ALL
of per-movie and per-show aggregate rows, each carrying
`(COUNT(r.Review_ID) * COALESCE(AVG(r.Score), 0)) as popularity_score`,
ordered by that score descending and truncated to `LIMIT 20`. -/
def get_popular_movies (db : DB) : List PopularityRow :=
  (List.insertionSort popBefore
    (db.movies.map (fun m =>
      { content_id := m.movie_id, title := m.title,
        review_count := (reviewsOfMovie db m.movie_id).length,
        popularity_score := ((reviewsOfMovie db m.movie_id).length : ℚ) *
          ((sqlAvg ((reviewsOfMovie db m.movie_id).map (fun r => r.score))).getD 0),
        content_type := "movie" }) ++
     db.shows.map (fun s =>
      { content_id := s.show_id, title := s.title,
        review_count := (reviewsOfShow db s.show_id).length,
        popularity_score := ((reviewsOfShow db s.show_id).length : ℚ) *
          ((sqlAvg ((reviewsOfShow db s.show_id).map (fun r => r.score))).getD 0),
        content_type := "show" }))).take 20

/-- Specification-side review count of a movie: the number of reviews
attached to it ("its review count"). -/
def specMovieReviewCount (db : DB) (mid : Nat) : Nat :=
  (reviewsOfMovie db mid).length

/-- Specification-side average rating of a movie: the mean score of all its
reviews ("the movie's average rating", NULL when it has none). -/
def specMovieAvgRating (db : DB) (mid : Nat) : Option ℚ :=
  sqlAvg ((reviewsOfMovie db mid).map (fun r => r.score))

/-- Genre ids associated with a movie. -/
def genresOfMovie (db : DB) (mid : Nat) : List Nat :=
  (db.movie_genres.filter (fun mg => decide (mg.movie_id = mid))).map (fun mg => mg.genre_id)

/-- Specification-side preference score: "the maximum precomputed
genre-preference weight across the movie's genres (0 when the user has no
stored preference for any of them)". -/
def specMaxPrefScore (db : DB) (uid mid : Nat) : ℚ :=
  (((db.user_preferences.filter (fun up =>
      decide (up.user_id = uid ∧ up.genre_id ∈ genresOfMovie db mid))).map
    (fun up => up.preference_score)).max?).getD 0

/-- Specification-side friend list of a user: the other endpoint of every
Friends row containing the user, in either orientation. -/
def friendsOf (db : DB) (uid : Nat) : List Nat :=
  db.friends.filterMap (friendIdCase uid)

/-- Specification-side friend-likes count: "the count of distinct friends
who rated it >= 7.0". -/
def specFriendLikes (db : DB) (uid mid : Nat) : Nat :=
  (((friendsOf db uid).filter (fun fid =>
      decide (∃ r ∈ db.reviews, r.user_id = fid ∧ r.movie_id = some mid ∧
        (7 : ℚ) ≤ r.score))).dedup).length

/-- Specification-side key of the preference-based recommendation ordering
as the claim states it: preference score, the movie's average rating, then
the movie's review count, all descending. -/
def specMovieRecKey (db : DB) (uid mid : Nat) : RecKey :=
  toLex (specMaxPrefScore db uid mid,
    toLex (toWithBot (specMovieAvgRating db mid), specMovieReviewCount db mid))

/-- a precedes b in the ordering the preference-recommendation claim
states. -/
def claimMovieRecBefore (db : DB) (uid : Nat) (a b : MovieRow) : Prop :=
  specMovieRecKey db uid b.movie_id ≤ specMovieRecKey db uid a.movie_id

instance (db : DB) (uid : Nat) : DecidableRel (claimMovieRecBefore db uid) :=
  fun a b =>
    inferInstanceAs (Decidable (specMovieRecKey db uid b.movie_id ≤ specMovieRecKey db uid a.movie_id))

/-- Specification-side key of the friend-activity recommendation ordering
as the claim states it: friend likes, then the movie's own average rating,
both descending. -/
def specFriendRecKey (db : DB) (uid mid : Nat) : FriendRecKey :=
  toLex (specFriendLikes db uid mid, toWithBot (specMovieAvgRating db mid))

/-- a precedes b in the ordering the friend-recommendation claim states. -/
def claimFriendRecBefore (db : DB) (uid : Nat) (a b : MovieRow) : Prop :=
  specFriendRecKey db uid b.movie_id ≤ specFriendRecKey db uid a.movie_id

instance (db : DB) (uid : Nat) : DecidableRel (claimFriendRecBefore db uid) :=
  fun a b =>
    inferInstanceAs (Decidable (specFriendRecKey db uid b.movie_id ≤ specFriendRecKey db uid a.movie_id))

/-- Specification-side substring containment on titles ("text filtering is
a substring match on title"). -/
def strStartsWithList : List Char → List Char → Bool
  | _, [] => true
  | [], _ :: _ => false
  | h :: t, n :: nt => h == n && strStartsWithList t nt

/-- Scan for a plain (non-wildcard) occurrence of the needle. -/
def strContainsList : List Char → List Char → Bool
  | hay, needle =>
    strStartsWithList hay needle ||
      (match hay with
       | [] => false
       | _ :: t => strContainsList t needle)

/-- A title contains the search string as a substring. -/
def specTitleContains (hay needle : String) : Bool :=
  strContainsList hay.toList needle.toList

/-- Movie used by the preference-recommendation counterexample: two genres,
two reviews. -/
def movieTwoGenres : MovieRow := { movie_id := 10, title := "Alpha" }

/-- Movie used by the preference-recommendation counterexample: one genre,
three reviews. -/
def movieOneGenre : MovieRow := { movie_id := 20, title := "Beta" }

/-- Database state for the preference-recommendation counterexample: user 1
has stored preference weight 5 for both genres 1 and 2; `movieTwoGenres`
carries both genres and has two reviews of score 8; `movieOneGenre` carries
only genre 1 and has three reviews of score 8. -/
def dbPref : DB :=
  { movies := [movieTwoGenres, movieOneGenre],
    reviews :=
      [{ review_id := 1, user_id := 2, movie_id := some 10, score := 8 },
       { review_id := 2, user_id := 3, movie_id := some 10, score := 8 },
       { review_id := 3, user_id := 2, movie_id := some 20, score := 8 },
       { review_id := 4, user_id := 3, movie_id := some 20, score := 8 },
       { review_id := 5, user_id := 4, movie_id := some 20, score := 8 }],
    movie_genres := [⟨10, 1⟩, ⟨10, 2⟩, ⟨20, 1⟩],
    user_preferences := [⟨1, 1, 5⟩, ⟨1, 2, 5⟩] }

/-- Movie used by the friend-recommendation counterexample: one friend
review of score 7 plus two non-friend reviews of score 10. -/
def movieHighOwnAvg : MovieRow := { movie_id := 30, title := "Gamma" }

/-- Movie used by the friend-recommendation counterexample: a single friend
review of score 8. -/
def movieLowOwnAvg : MovieRow := { movie_id := 40, title := "Delta" }

/-- Database state for the friend-recommendation counterexample: user 1 is
friends with user 5 only. -/
def dbFriend : DB :=
  { movies := [movieHighOwnAvg, movieLowOwnAvg],
    reviews :=
      [{ review_id := 11, user_id := 5, movie_id := some 30, score := 7 },
       { review_id := 12, user_id := 6, movie_id := some 30, score := 10 },
       { review_id := 13, user_id := 7, movie_id := some 30, score := 10 },
       { review_id := 14, user_id := 5, movie_id := some 40, score := 8 }],
    friends := [⟨1, 5⟩] }

theorem sqlAvg_flatMap_replicate (k : ℕ) (hk : k ≠ 0) (l : List ℚ) :
    sqlAvg (l.flatMap (fun q => List.replicate k q)) = sqlAvg l := by
  rcases eq_or_ne l [] with rfl | hl
  · simp [sqlAvg]
  · have hlen : (l.flatMap (fun q => List.replicate k q)).length = l.length * k := by
      simp [List.length_flatMap, Function.comp_def, List.map_const', List.sum_const_nat]
    have hsum : (l.flatMap (fun q => List.replicate k q)).sum = (k : ℚ) * l.sum := by
      rw [List.flatMap, List.sum_flatten, List.map_map]
      have : (List.sum ∘ fun q => List.replicate k q) = fun q : ℚ => (k : ℚ) * q := by
        funext q
        simp [Function.comp_def, List.sum_replicate, nsmul_eq_mul]
      rw [this]
      have := List.sum_map_mul_left l (fun q : ℚ => q) ((k : ℚ))
      simpa using this
    have hne : l.flatMap (fun q => List.replicate k q) ≠ [] := by
      intro h
      have : (l.flatMap (fun q => List.replicate k q)).length = 0 := by rw [h]; rfl
      rw [hlen] at this
      rcases Nat.mul_eq_zero.mp this with h1 | h2
      · exact hl (List.length_eq_zero.mp h1)
      · exact hk h2
    have hlne : (l.length : ℚ) ≠ 0 := by
      simpa using List.length_eq_zero.not.mpr hl
    have hkq : (k : ℚ) ≠ 0 := by
      simpa using hk
    simp only [sqlAvg, List.isEmpty_iff, hne, hl, if_false]
    rw [hsum, hlen]
    congr 1
    push_cast
    rw [mul_comm (l.length : ℚ) (k : ℚ), mul_div_mul_left _ _ hkq]

theorem filterMap_pair_score (rs : List ReviewRow) (ps : List (Option PrefRow)) :
    ((rs.map some).flatMap (fun r => ps.map (fun p => (r, p)))).filterMap
        (fun rp => rp.1.map (fun r => r.score)) =
      (rs.map (fun r => r.score)).flatMap (fun q => List.replicate ps.length q) := by
  induction rs with
  | nil => simp
  | cons a t ih =>
    simp only [List.map_cons, List.flatMap_cons, List.filterMap_append, ih]
    congr 1
    rw [List.filterMap_map]
    have : ((fun rp : Option ReviewRow × Option PrefRow => rp.1.map (fun r => r.score)) ∘
        (fun p => (some a, p))) = fun _ : Option PrefRow => some a.score := by
      funext p
      rfl
    rw [this]
    have : (fun _ : Option PrefRow => some a.score) = some ∘ (fun _ => a.score) := rfl
    rw [this, List.filterMap_eq_map, List.map_const']

theorem filterMap_pair_review (rs : List ReviewRow) (ps : List (Option PrefRow)) :
    ((rs.map some).flatMap (fun r => ps.map (fun p => (r, p)))).filterMap
        (fun rp => rp.1) =
      rs.flatMap (fun r => List.replicate ps.length r) := by
  induction rs with
  | nil => simp
  | cons a t ih =>
    simp only [List.map_cons, List.flatMap_cons, List.filterMap_append, ih]
    congr 1
    rw [List.filterMap_map]
    have : ((fun rp : Option ReviewRow × Option PrefRow => rp.1) ∘
        (fun p => (some a, p))) = fun _ : Option PrefRow => some a := by
      funext p
      rfl
    rw [this]
    have : (fun _ : Option PrefRow => some a) = some ∘ (fun _ => a) := rfl
    rw [this, List.filterMap_eq_map, List.map_const']

theorem filterMap_none_nil {α β : Type} (l : List α) :
    l.filterMap (fun _ => (none : Option β)) = [] := by
  induction l with
  | nil => rfl
  | cons a t ih => simp [List.filterMap_cons, ih]

theorem recJoinedRows_eq (db : DB) (uid mid : Nat) :
    recJoinedRows db uid mid =
      (if ((reviewsOfMovie db mid).map some).isEmpty then [none]
        else (reviewsOfMovie db mid).map some).flatMap
        (fun r =>
          (if ((prefRowsForMovie db uid mid).map some).isEmpty then [none]
            else (prefRowsForMovie db uid mid).map some).map (fun p => (r, p))) := rfl

/-- The review-side aggregate of the preference-recommendation join equals
the movie's plain average rating: the LEFT JOIN against `User_Preferences`
repeats every review row the same number of times, which cancels in `AVG`. -/
theorem recAvgRating_eq_spec (db : DB) (uid mid : Nat) :
    recAvgRating db uid mid = specMovieAvgRating db mid := by
  unfold recAvgRating specMovieAvgRating
  rw [recJoinedRows_eq]
  rcases eq_or_ne (reviewsOfMovie db mid) [] with he | hne
  · rw [he]
    simp only [List.map_nil, List.isEmpty_nil, if_true]
    have : ∀ ps : List (Option PrefRow),
        (([(none : Option ReviewRow)].flatMap (fun r => ps.map (fun p => (r, p)))).filterMap
          (fun rp => rp.1.map (fun r => r.score))) = [] := by
      intro ps
      simp only [List.flatMap_cons, List.flatMap_nil, List.append_nil, List.filterMap_map]
      exact filterMap_none_nil ps
    rw [this]
  · have hmapne : ((reviewsOfMovie db mid).map some).isEmpty = false := by
      simp [List.isEmpty_iff, hne]
    rw [hmapne]
    simp only [Bool.false_eq_true, if_false]
    rw [filterMap_pair_score]
    apply sqlAvg_flatMap_replicate
    rcases eq_or_ne (prefRowsForMovie db uid mid) [] with hp | hp
    · simp [hp]
    · simp [List.isEmpty_iff, hp, List.length_eq_zero]

/-- The `COUNT(r.Review_ID)` of the preference-recommendation join is the
movie's review count multiplied by the number of joined preference rows
(one NULL row when the user has no matching preference). -/
theorem recReviewCount_eq_spec (db : DB) (uid mid : Nat) :
    recReviewCount db uid mid =
      specMovieReviewCount db mid * max 1 (prefRowsForMovie db uid mid).length := by
  unfold recReviewCount specMovieReviewCount
  rw [recJoinedRows_eq]
  rcases eq_or_ne (reviewsOfMovie db mid) [] with he | hne
  · rw [he]
    simp only [List.map_nil, List.isEmpty_nil, if_true, List.length_nil, Nat.zero_mul]
    have : ∀ ps : List (Option PrefRow),
        (([(none : Option ReviewRow)].flatMap (fun r => ps.map (fun p => (r, p)))).filterMap
          (fun rp => rp.1)) = [] := by
      intro ps
      simp only [List.flatMap_cons, List.flatMap_nil, List.append_nil, List.filterMap_map]
      exact filterMap_none_nil ps
    rw [this]
    rfl
  · have hmapne : ((reviewsOfMovie db mid).map some).isEmpty = false := by
      simp [List.isEmpty_iff, hne]
    rw [hmapne]
    simp only [Bool.false_eq_true, if_false]
    rw [filterMap_pair_review]
    have hlen : ∀ (l : List ReviewRow) (k : ℕ),
        (l.flatMap (fun r => List.replicate k r)).length = l.length * k := by
      intro l k
      simp [List.length_flatMap, Function.comp_def, List.map_const', List.sum_const_nat]
    rw [hlen]
    congr 1
    rcases eq_or_ne (prefRowsForMovie db uid mid) [] with hp | hp
    · simp [hp]
    · have h1 : 1 ≤ (prefRowsForMovie db uid mid).length :=
        Nat.one_le_iff_ne_zero.mpr (fun h => hp (List.length_eq_zero.mp h))
      simp [List.isEmpty_iff, hp, Nat.max_eq_right h1]

theorem max?_congr_mem {l1 l2 : List ℚ} (h : ∀ x, x ∈ l1 ↔ x ∈ l2) :
    l1.max? = l2.max? := by
  have anti : Std.Antisymm (α := ℚ) (· ≤ ·) := ⟨fun h1 h2 => le_antisymm h1 h2⟩
  rcases h1 : l1.max? with _ | a
  · have e1 : l1 = [] := List.max?_eq_none_iff.mp h1
    have e2 : l2 = [] := by
      apply List.eq_nil_iff_forall_not_mem.mpr
      intro x hx
      have := (h x).mpr hx
      rw [e1] at this
      exact List.not_mem_nil x this
    rw [List.max?_eq_none_iff.mpr e2]
  · rw [List.max?_eq_some_iff (fun a : ℚ => le_refl a) max_choice
      (fun _ _ _ => max_le_iff)] at h1
    symm
    rw [List.max?_eq_some_iff (fun a : ℚ => le_refl a) max_choice
      (fun _ _ _ => max_le_iff)]
    exact ⟨(h a).mp h1.1, fun b hb => h1.2 b ((h b).mpr hb)⟩

theorem mem_recJoined_pref (db : DB) (uid mid : Nat) (up : PrefRow) :
    up ∈ (recJoinedRows db uid mid).filterMap (fun rp => rp.2) ↔
      up ∈ prefRowsForMovie db uid mid := by
  rw [recJoinedRows_eq]
  rcases eq_or_ne (prefRowsForMovie db uid mid) [] with hp | hp
  · simp [hp]
  · have hpne : ((prefRowsForMovie db uid mid).map some).isEmpty = false := by
      simp [List.isEmpty_iff, hp]
    rw [hpne]
    simp only [Bool.false_eq_true, if_false]
    rcases eq_or_ne (reviewsOfMovie db mid) [] with he | hne
    · simp [he, List.mem_filterMap, List.mem_flatMap, List.mem_map]
    · have hrne : ((reviewsOfMovie db mid).map some).isEmpty = false := by
        simp [List.isEmpty_iff, hne]
      rw [hrne]
      simp only [Bool.false_eq_true, if_false]
      simp only [List.mem_filterMap, List.mem_flatMap, List.mem_map]
      constructor
      · rintro ⟨rp, ⟨r, hr, p, hp2, rfl⟩, h2⟩
        rcases hp2 with ⟨p0, hp0, rfl⟩
        simp only [Option.some_inj] at h2
        exact h2 ▸ hp0
      · intro hup
        rcases List.exists_mem_of_ne_nil _ hne with ⟨r0, hr0⟩
        exact ⟨(some r0, some up), ⟨some r0, ⟨r0, hr0, rfl⟩, some up, ⟨up, hup, rfl⟩, rfl⟩, rfl⟩

theorem prefRowsForMovie_eq_spec (db : DB) (uid mid : Nat) :
    prefRowsForMovie db uid mid =
      db.user_preferences.filter (fun up =>
        decide (up.user_id = uid ∧ up.genre_id ∈ genresOfMovie db mid)) := by
  unfold prefRowsForMovie
  apply List.filter_congr
  intro up _
  rw [Bool.eq_iff_iff]
  simp only [Bool.and_eq_true, decide_eq_true_eq, List.any_eq_true, genresOfMovie,
    List.mem_map, List.mem_filter]
  constructor
  · rintro ⟨h1, mg, hmg, h2, h3⟩
    exact ⟨h1, mg, ⟨hmg, by simp [h2]⟩, h3⟩
  · rintro ⟨h1, mg, ⟨hmg, h2⟩, h3⟩
    exact ⟨h1, mg, hmg, by simpa using h2, h3⟩

/-- The `COALESCE(MAX(up.Preference_Score), 0)` aggregate of the
recommendation join equals the claim's description of the preference score:
the join repeats preference rows without changing their value set, which
`MAX` ignores. -/
theorem max_preference_score_eq_spec (db : DB) (uid mid : Nat) :
    max_preference_score db uid mid = specMaxPrefScore db uid mid := by
  unfold max_preference_score specMaxPrefScore
  rw [← prefRowsForMovie_eq_spec]
  congr 1
  apply max?_congr_mem
  intro x
  simp only [List.mem_map]
  constructor
  · rintro ⟨up, hup, rfl⟩
    exact ⟨up, (mem_recJoined_pref db uid mid up).mp hup, rfl⟩
  · rintro ⟨up, hup, rfl⟩
    exact ⟨up, (mem_recJoined_pref db uid mid up).mpr hup, rfl⟩

theorem mem_friendCase_iff (db : DB) (uid mid x : Nat) :
    x ∈ (friendRecJoinedRows db uid mid).filterMap (fun rf => friendIdCase uid rf.2) ↔
      (x ∈ friendsOf db uid ∧ ∃ r ∈ db.reviews, r.user_id = x ∧ r.movie_id = some mid ∧
        (7 : ℚ) ≤ r.score) := by
  simp only [friendRecJoinedRows, friendLinkRows, friendsOf, reviewsOfMovie, List.mem_filterMap,
    List.mem_flatMap, List.mem_map, List.mem_filter, decide_eq_true_eq]
  constructor
  · rintro ⟨rf, ⟨r, ⟨⟨hr, hmov⟩, hsc⟩, f, ⟨hf, hlink⟩, rfl⟩, hcase⟩
    refine ⟨⟨f, hf, hcase⟩, r, hr, ?_, hmov, hsc⟩
    rcases hlink with ⟨h1, h2⟩ | ⟨h1, h2⟩
    · have hc : friendIdCase uid f = some f.user_id2 := by
        simp [friendIdCase, h1]
      rw [hc] at hcase
      simp only [Option.some_inj] at hcase
      rw [← hcase, h2]
    · by_cases h3 : f.user_id1 = uid
      · have hc : friendIdCase uid f = some f.user_id2 := by
          simp [friendIdCase, h3]
        rw [hc] at hcase
        simp only [Option.some_inj] at hcase
        rw [← h2, h3, ← hcase, h1]
      · have hc : friendIdCase uid f = some f.user_id1 := by
          simp [friendIdCase, h3, h1]
        rw [hc] at hcase
        simp only [Option.some_inj] at hcase
        rw [← hcase, h2]
  · rintro ⟨⟨f, hf, hcase⟩, r, hr, hxu, hmov, hsc⟩
    refine ⟨(r, f), ⟨r, ⟨⟨hr, hmov⟩, hsc⟩, f, ⟨hf, ?_⟩, rfl⟩, hcase⟩
    by_cases h1 : f.user_id1 = uid
    · have hc : friendIdCase uid f = some f.user_id2 := by
        simp [friendIdCase, h1]
      rw [hc] at hcase
      simp only [Option.some_inj] at hcase
      exact Or.inl ⟨h1, by rw [hxu, ← hcase]⟩
    · by_cases h2 : f.user_id2 = uid
      · have hc : friendIdCase uid f = some f.user_id1 := by
          simp [friendIdCase, h1, h2]
        rw [hc] at hcase
        simp only [Option.some_inj] at hcase
        exact Or.inr ⟨h2, by rw [hxu, ← hcase]⟩
      · have hc : friendIdCase uid f = none := by
          simp [friendIdCase, h1, h2]
        rw [hc] at hcase
        exact absurd hcase (by simp)

/-- The `friend_likes` aggregate agrees with the claim's description: the
number of distinct friends of the user who reviewed the movie with a score
of at least 7.0. -/
theorem friend_likes_eq_spec (db : DB) (uid mid : Nat) :
    friend_likes db uid mid = specFriendLikes db uid mid := by
  unfold friend_likes specFriendLikes
  rw [← List.card_toFinset, ← List.card_toFinset]
  congr 1
  ext x
  simp only [List.mem_toFinset, List.mem_filter, decide_eq_true_eq]
  exact mem_friendCase_iff db uid mid x

theorem friendRecJoinedRows_ne_nil_iff (db : DB) (uid mid : Nat) :
    friendRecJoinedRows db uid mid ≠ [] ↔
      ∃ fid ∈ friendsOf db uid, ∃ r ∈ db.reviews, r.user_id = fid ∧
        r.movie_id = some mid ∧ (7 : ℚ) ≤ r.score := by
  constructor
  · intro h
    obtain ⟨rf, hrf⟩ := List.exists_mem_of_ne_nil _ h
    have hlink : rf.2.user_id1 = uid ∨ rf.2.user_id2 = uid := by
      have := hrf
      simp only [friendRecJoinedRows, friendLinkRows, List.mem_flatMap, List.mem_map,
        List.mem_filter, decide_eq_true_eq] at this
      obtain ⟨r, _, f, ⟨_, hl⟩, rfl⟩ := this
      rcases hl with ⟨h1, _⟩ | ⟨h1, _⟩
      · exact Or.inl h1
      · exact Or.inr h1
    have hx : ∃ x, friendIdCase uid rf.2 = some x := by
      rcases hlink with h1 | h1
      · exact ⟨rf.2.user_id2, by simp [friendIdCase, h1]⟩
      · by_cases h2 : rf.2.user_id1 = uid
        · exact ⟨rf.2.user_id2, by simp [friendIdCase, h2]⟩
        · exact ⟨rf.2.user_id1, by simp [friendIdCase, h2, h1]⟩
    obtain ⟨x, hxc⟩ := hx
    have hmem : x ∈ (friendRecJoinedRows db uid mid).filterMap
        (fun rf => friendIdCase uid rf.2) :=
      List.mem_filterMap.mpr ⟨rf, hrf, hxc⟩
    obtain ⟨hfr, r, hr, h1, h2, h3⟩ := (mem_friendCase_iff db uid mid x).mp hmem
    exact ⟨x, hfr, r, hr, h1, h2, h3⟩
  · rintro ⟨fid, hfid, r, hr, h1, h2, h3⟩
    have hmem : fid ∈ (friendRecJoinedRows db uid mid).filterMap
        (fun rf => friendIdCase uid rf.2) :=
      (mem_friendCase_iff db uid mid fid).mpr ⟨hfid, r, hr, h1, h2, h3⟩
    obtain ⟨rf, hrf, _⟩ := List.mem_filterMap.mp hmem
    intro hnil
    rw [hnil] at hrf
    exact List.not_mem_nil _ hrf

/-- C4: for all user pairs and database states, `are_friends` is symmetric
in its arguments regardless of the stored orientation of the Friends row,
and it returns true exactly when a Friends row exists in either orientation
for the pair. -/
theorem are_friends_symm_and_characterization (db : DB) (a b : Nat) :
    are_friends db a b = are_friends db b a ∧
    (are_friends db a b = true ↔
      ∃ f ∈ db.friends,
        (f.user_id1 = a ∧ f.user_id2 = b) ∨ (f.user_id1 = b ∧ f.user_id2 = a)) := by
  have hfilters :
      db.friends.filter (fun f =>
        decide ((f.user_id1 = a ∧ f.user_id2 = b) ∨ (f.user_id1 = b ∧ f.user_id2 = a))) =
      db.friends.filter (fun f =>
        decide ((f.user_id1 = b ∧ f.user_id2 = a) ∨ (f.user_id1 = a ∧ f.user_id2 = b))) :=
    List.filter_congr (fun f _ => by
      rw [Bool.eq_iff_iff]
      simp only [decide_eq_true_eq]
      exact or_comm)
  constructor
  · unfold are_friends
    rw [hfilters]
  · unfold are_friends
    rw [decide_eq_true_eq, List.length_pos_iff_exists_mem]
    constructor
    · rintro ⟨f, hf⟩
      rw [List.mem_filter] at hf
      exact ⟨f, hf.1, by simpa using hf.2⟩
    · rintro ⟨f, hf, hc⟩
      exact ⟨f, List.mem_filter.mpr ⟨hf, by simpa using hc⟩⟩

/-- Witness for C4 at a concrete database: the friendship stored as (1, 5)
is reported in both orientations. -/
theorem are_friends_symm_witness :
    are_friends dbFriend 1 5 = are_friends dbFriend 5 1 ∧
    (are_friends dbFriend 1 5 = true ↔
      ∃ f ∈ dbFriend.friends,
        (f.user_id1 = 1 ∧ f.user_id2 = 5) ∨ (f.user_id1 = 5 ∧ f.user_id2 = 1)) :=
  are_friends_symm_and_characterization dbFriend 1 5

/-- C3: neither recommendation list ever contains a movie the user has
already reviewed: both queries exclude the subquery of the user's reviewed
movie ids with `NOT IN`. -/
theorem recommendations_exclude_reviewed (db : DB) (uid limit : Nat) (m : MovieRow) :
    (m ∈ get_movie_recommendations db uid limit →
      ¬ userHasReviewedMovie db uid m.movie_id) ∧
    (m ∈ get_friend_recommendations db uid limit →
      ¬ userHasReviewedMovie db uid m.movie_id) := by
  constructor
  · intro hm
    have h1 : m ∈ List.insertionSort (movieRecBefore db uid)
        (db.movies.filter (fun m => !decide (m.movie_id ∈ reviewedMovieIds db uid))) :=
      List.mem_of_mem_take hm
    rw [List.mem_insertionSort, List.mem_filter] at h1
    have := h1.2
    simp only [Bool.not_eq_eq_eq_not, Bool.not_true, decide_eq_false_iff_not] at this
    exact fun hc => this ((mem_reviewedMovieIds db uid m.movie_id).mpr hc)
  · intro hm
    have h1 : m ∈ List.insertionSort (friendRecBefore db uid)
        (db.movies.filter (fun m =>
          !decide (m.movie_id ∈ reviewedMovieIds db uid) &&
          !(friendRecJoinedRows db uid m.movie_id).isEmpty)) :=
      List.mem_of_mem_take hm
    rw [List.mem_insertionSort, List.mem_filter] at h1
    have h2 := h1.2
    rw [Bool.and_eq_true] at h2
    have := h2.1
    simp only [Bool.not_eq_eq_eq_not, Bool.not_true, decide_eq_false_iff_not] at this
    exact fun hc => this ((mem_reviewedMovieIds db uid m.movie_id).mpr hc)

unseal Rat.mul Rat.inv Rat.add Rat.sub in
/-- Witness for C3: in the preference counterexample database, the movie
with id 10 is recommended to user 1, and user 1 has indeed not reviewed
it. -/
theorem recommendations_exclude_reviewed_witness :
    ¬ userHasReviewedMovie dbPref 1 movieTwoGenres.movie_id :=
  (recommendations_exclude_reviewed dbPref 1 10 movieTwoGenres).1 (by decide)

theorem movieRecBefore_pref_le {db : DB} {uid : Nat} {a b : MovieRow}
    (h : movieRecBefore db uid a b) :
    max_preference_score db uid b.movie_id ≤ max_preference_score db uid a.movie_id := by
  unfold movieRecBefore movieRecKey at h
  rw [Prod.Lex.le_iff] at h
  rcases h with h | ⟨h1, _⟩
  · exact le_of_lt h
  · exact le_of_eq h1

/-- C1 (amended): the preference-based recommendation returns only movies
the user has not reviewed, ordered by the maximum stored genre-preference
weight (0 without one) descending, then the movie's average rating
descending, then the count of joined review rows descending — the review
count multiplied by the number of the user's stored preferences among the
movie's genres when there is at least one — truncated to the limit; a
higher preference score always ranks first. -/
theorem get_movie_recommendations_spec (db : DB) (uid limit : Nat) :
    (∀ m : MovieRow,
        m ∈ db.movies.filter (fun m => !decide (m.movie_id ∈ reviewedMovieIds db uid)) ↔
          m ∈ db.movies ∧ ¬ userHasReviewedMovie db uid m.movie_id) ∧
    (∀ mid : Nat, recAvgRating db uid mid = specMovieAvgRating db mid) ∧
    (∀ mid : Nat, max_preference_score db uid mid = specMaxPrefScore db uid mid) ∧
    (∀ mid : Nat, recReviewCount db uid mid =
        specMovieReviewCount db mid * max 1 (prefRowsForMovie db uid mid).length) ∧
    List.Sorted (movieRecBefore db uid) (get_movie_recommendations db uid limit) ∧
    (get_movie_recommendations db uid limit).length ≤ limit ∧
    (∀ i j : Fin (get_movie_recommendations db uid limit).length, i ≤ j →
        max_preference_score db uid
            (((get_movie_recommendations db uid limit).get j).movie_id) ≤
          max_preference_score db uid
            (((get_movie_recommendations db uid limit).get i).movie_id)) ∧
    (∃ l, List.Perm l (db.movies.filter
            (fun m => !decide (m.movie_id ∈ reviewedMovieIds db uid))) ∧
        List.Sorted (movieRecBefore db uid) l ∧
        get_movie_recommendations db uid limit = l.take limit) := by
  have hsorted : List.Sorted (movieRecBefore db uid)
      (List.insertionSort (movieRecBefore db uid)
        (db.movies.filter (fun m => !decide (m.movie_id ∈ reviewedMovieIds db uid)))) :=
    List.sorted_insertionSort _ _
  refine ⟨?_, recAvgRating_eq_spec db uid, max_preference_score_eq_spec db uid,
    recReviewCount_eq_spec db uid, ?_, ?_, ?_, ?_⟩
  · intro m
    rw [List.mem_filter]
    simp only [Bool.not_eq_eq_eq_not, Bool.not_true, decide_eq_false_iff_not,
      mem_reviewedMovieIds]
  · exact List.Pairwise.sublist (List.take_sublist _ _) hsorted
  · exact List.length_take_le _ _
  · intro i j hij
    rcases eq_or_lt_of_le hij with heq | hlt
    · rw [heq]
    · have hs : List.Sorted (movieRecBefore db uid)
          (get_movie_recommendations db uid limit) :=
        List.Pairwise.sublist (List.take_sublist _ _) hsorted
      exact movieRecBefore_pref_le (hs.rel_get_of_lt hlt)
  · exact ⟨List.insertionSort (movieRecBefore db uid)
        (db.movies.filter (fun m => !decide (m.movie_id ∈ reviewedMovieIds db uid))),
      List.perm_insertionSort _ _, hsorted, rfl⟩

/-- Witness for the amended C1 at a concrete database: the returned list is
sorted by the code's descending key. -/
theorem get_movie_recommendations_spec_witness :
    List.Sorted (movieRecBefore dbPref 1) (get_movie_recommendations dbPref 1 10) :=
  (get_movie_recommendations_spec dbPref 1 10).2.2.2.2.1

unseal Rat.mul Rat.inv Rat.add Rat.sub in
/-- Counterexample to C1 as stated: for user 1 in `dbPref`, both candidate
movies tie on preference score (5) and on average rating (8), so the claim
requires the tie to be broken by the movies' review counts (3 reviews
before 2); the code instead orders by the join-inflated count (4 joined
rows before 3) and returns the two-review movie first, so the returned
list is not sorted by the claimed key. -/
theorem get_movie_recommendations_claim_false :
    get_movie_recommendations dbPref 1 10 = [movieTwoGenres, movieOneGenre] ∧
    ¬ List.Sorted (claimMovieRecBefore dbPref 1) (get_movie_recommendations dbPref 1 10) ∧
    specMaxPrefScore dbPref 1 movieTwoGenres.movie_id =
      specMaxPrefScore dbPref 1 movieOneGenre.movie_id ∧
    specMovieAvgRating dbPref movieTwoGenres.movie_id =
      specMovieAvgRating dbPref movieOneGenre.movie_id ∧
    specMovieReviewCount dbPref movieTwoGenres.movie_id = 2 ∧
    specMovieReviewCount dbPref movieOneGenre.movie_id = 3 ∧
    recReviewCount dbPref 1 movieTwoGenres.movie_id = 4 ∧
    recReviewCount dbPref 1 movieOneGenre.movie_id = 3 ∧
    ¬ userHasReviewedMovie dbPref 1 movieTwoGenres.movie_id ∧
    ¬ userHasReviewedMovie dbPref 1 movieOneGenre.movie_id := by decide

theorem friendRecBefore_likes_le {db : DB} {uid : Nat} {a b : MovieRow}
    (h : friendRecBefore db uid a b) :
    friend_likes db uid b.movie_id ≤ friend_likes db uid a.movie_id := by
  unfold friendRecBefore friendRecKey at h
  rw [Prod.Lex.le_iff] at h
  rcases h with h | ⟨h1, _⟩
  · exact le_of_lt h
  · exact le_of_eq h1

/-- C2 (amended): the friend-activity recommendation's candidates are
exactly the movies not reviewed by the user that at least one friend rated
at least 7.0, `friend_likes` counts the distinct such friends, and the
candidates are ordered by `friend_likes` descending with ties broken by the
average score of the joined qualifying friend reviews — not the movie's
overall average rating — descending, truncated to the limit. -/
theorem get_friend_recommendations_spec (db : DB) (uid limit : Nat) :
    (∀ m : MovieRow,
        m ∈ db.movies.filter (fun m =>
            !decide (m.movie_id ∈ reviewedMovieIds db uid) &&
            !(friendRecJoinedRows db uid m.movie_id).isEmpty) ↔
          (m ∈ db.movies ∧ ¬ userHasReviewedMovie db uid m.movie_id ∧
            ∃ fid ∈ friendsOf db uid, ∃ r ∈ db.reviews, r.user_id = fid ∧
              r.movie_id = some m.movie_id ∧ (7 : ℚ) ≤ r.score)) ∧
    (∀ mid : Nat, friend_likes db uid mid = specFriendLikes db uid mid) ∧
    List.Sorted (friendRecBefore db uid) (get_friend_recommendations db uid limit) ∧
    (get_friend_recommendations db uid limit).length ≤ limit ∧
    (∀ i j : Fin (get_friend_recommendations db uid limit).length, i ≤ j →
        friend_likes db uid
            (((get_friend_recommendations db uid limit).get j).movie_id) ≤
          friend_likes db uid
            (((get_friend_recommendations db uid limit).get i).movie_id)) ∧
    (∃ l, List.Perm l (db.movies.filter (fun m =>
            !decide (m.movie_id ∈ reviewedMovieIds db uid) &&
            !(friendRecJoinedRows db uid m.movie_id).isEmpty)) ∧
        List.Sorted (friendRecBefore db uid) l ∧
        get_friend_recommendations db uid limit = l.take limit) := by
  have hsorted : List.Sorted (friendRecBefore db uid)
      (List.insertionSort (friendRecBefore db uid)
        (db.movies.filter (fun m =>
          !decide (m.movie_id ∈ reviewedMovieIds db uid) &&
          !(friendRecJoinedRows db uid m.movie_id).isEmpty))) :=
    List.sorted_insertionSort _ _
  refine ⟨?_, friend_likes_eq_spec db uid, ?_, ?_, ?_, ?_⟩
  · intro m
    rw [List.mem_filter]
    constructor
    · rintro ⟨h1, h2⟩
      rw [Bool.and_eq_true] at h2
      refine ⟨h1, ?_, ?_⟩
      · have := h2.1
        simp only [Bool.not_eq_eq_eq_not, Bool.not_true, decide_eq_false_iff_not] at this
        exact fun hc => this ((mem_reviewedMovieIds db uid m.movie_id).mpr hc)
      · have h3 := h2.2
        simp only [Bool.not_eq_eq_eq_not, Bool.not_true] at h3
        exact (friendRecJoinedRows_ne_nil_iff db uid m.movie_id).mp
          (by simpa [List.isEmpty_iff] using h3)
    · rintro ⟨h1, h2, h3⟩
      refine ⟨h1, ?_⟩
      rw [Bool.and_eq_true]
      constructor
      · simp only [Bool.not_eq_eq_eq_not, Bool.not_true, decide_eq_false_iff_not]
        exact fun hc => h2 ((mem_reviewedMovieIds db uid m.movie_id).mp hc)
      · simp only [Bool.not_eq_eq_eq_not, Bool.not_true]
        simpa [List.isEmpty_iff] using
          (friendRecJoinedRows_ne_nil_iff db uid m.movie_id).mpr h3
  · exact List.Pairwise.sublist (List.take_sublist _ _) hsorted
  · exact List.length_take_le _ _
  · intro i j hij
    rcases eq_or_lt_of_le hij with heq | hlt
    · rw [heq]
    · have hs : List.Sorted (friendRecBefore db uid)
          (get_friend_recommendations db uid limit) :=
        List.Pairwise.sublist (List.take_sublist _ _) hsorted
      exact friendRecBefore_likes_le (hs.rel_get_of_lt hlt)
  · exact ⟨List.insertionSort (friendRecBefore db uid)
        (db.movies.filter (fun m =>
          !decide (m.movie_id ∈ reviewedMovieIds db uid) &&
          !(friendRecJoinedRows db uid m.movie_id).isEmpty)),
      List.perm_insertionSort _ _, hsorted, rfl⟩

/-- Witness for the amended C2 at a concrete database: the returned list is
sorted by the code's descending key. -/
theorem get_friend_recommendations_spec_witness :
    List.Sorted (friendRecBefore dbFriend 1) (get_friend_recommendations dbFriend 1 10) :=
  (get_friend_recommendations_spec dbFriend 1 10).2.2.1

unseal Rat.mul Rat.inv Rat.add Rat.sub in
/-- Counterexample to C2 as stated: for user 1 in `dbFriend` the two
candidates tie on `friend_likes` (1 each); the movie with id 30 has the
higher own average rating (9 versus 8), so the claim requires it first,
but the code breaks the tie by the average over the friends' qualifying
reviews only (7 versus 8) and returns the other movie first, so the
returned list is not sorted by the claimed key. -/
theorem get_friend_recommendations_claim_false :
    get_friend_recommendations dbFriend 1 10 = [movieLowOwnAvg, movieHighOwnAvg] ∧
    ¬ List.Sorted (claimFriendRecBefore dbFriend 1)
        (get_friend_recommendations dbFriend 1 10) ∧
    specFriendLikes dbFriend 1 movieHighOwnAvg.movie_id = 1 ∧
    specFriendLikes dbFriend 1 movieLowOwnAvg.movie_id = 1 ∧
    specMovieAvgRating dbFriend movieHighOwnAvg.movie_id = some 9 ∧
    specMovieAvgRating dbFriend movieLowOwnAvg.movie_id = some 8 ∧
    frAvgRating dbFriend 1 movieHighOwnAvg.movie_id = some 7 ∧
    frAvgRating dbFriend 1 movieLowOwnAvg.movie_id = some 8 ∧
    ¬ userHasReviewedMovie dbFriend 1 movieHighOwnAvg.movie_id ∧
    ¬ userHasReviewedMovie dbFriend 1 movieLowOwnAvg.movie_id := by decide

/-- C5: the add-review handler rejects, before issuing any persistence
effect, every request that is unauthenticated, lacks a parseable nonzero
score, has a score outside [0, 10], lacks a title, names both a movie and a
show, or names neither. -/
theorem add_review_rejects_invalid (su : Option Nat) (f : ReviewForm)
    (h : su = none ∨ f.score = none ∨
      (∃ q : ℚ, f.score = some q ∧ (q < 0 ∨ 10 < q)) ∨
      f.title = none ∨ f.title = some "" ∨
      (truthyInt f.movie_id = true ∧ truthyInt f.show_id = true) ∨
      (truthyInt f.movie_id = false ∧ truthyInt f.show_id = false)) :
    (add_review su f).2 = [] := by
  rcases su with _ | uid
  · rfl
  · unfold add_review
    by_cases h1 : (truthyInt f.movie_id && truthyInt f.show_id) = true
    · simp [h1]
    · by_cases h2 : (!truthyInt f.movie_id && !truthyInt f.show_id) = true
      · simp [h1, h2]
      · by_cases h3 : (truthyRat f.score && truthyStr f.title) = true
        · rcases h with h | h | h | h | h | h | h
          · exact absurd h (by simp)
          · rw [Bool.and_eq_true] at h3
            rw [h] at h3
            exact absurd h3.1 (by simp [truthyRat])
          · obtain ⟨q, hq, hrange⟩ := h
            have hcond : (decide (q < 0) || decide (10 < q)) = true := by
              rcases hrange with hlt | hgt
              · simp [hlt]
              · simp [hgt]
            simp [h1, h2, h3, hq, hcond, Option.getD_some]
            split
            · rfl
            · rfl
          · rw [Bool.and_eq_true] at h3
            rw [h] at h3
            exact absurd h3.2 (by simp [truthyStr])
          · rw [Bool.and_eq_true] at h3
            rw [h] at h3
            exact absurd h3.2 (by decide)
          · rw [Bool.and_eq_true] at h1
            exact absurd h h1
          · rw [Bool.and_eq_true] at h2
            rcases h with ⟨ha, hb⟩
            exact absurd ⟨by simp [ha], by simp [hb]⟩ h2
        · simp [h1, h2, h3]

/-- Witness for C5: a review submission with score 11 is rejected with no
persistence effect. -/
theorem add_review_rejects_invalid_witness :
    (add_review (some 1)
      { score := some 11, title := some "Great", content := some "body",
        movie_id := some 1 }).2 = [] :=
  add_review_rejects_invalid (some 1) _
    (Or.inr (Or.inr (Or.inl ⟨11, rfl, Or.inr (by norm_num)⟩)))

/-- The review row of the ownership witness database, authored by user 2. -/
def ownedReview : ReviewRow :=
  { review_id := 100, user_id := 2, movie_id := some 10, score := 8 }

/-- Database with a single review, authored by user 2. -/
def dbOwned : DB := { reviews := [ownedReview] }

/-- C6: when the fetched review belongs to a different user, both the edit
and the delete handler answer with the ownership failure and produce no
persistence effect, and that failure is distinct from the not-found answer
given when no review with the id exists. -/
theorem review_mutation_requires_ownership (db : DB) (uid rid : Nat) (f : ReviewForm)
    (r : ReviewRow) (hr : get_review_by_id db rid = some r) (hno : r.user_id ≠ uid) :
    edit_review db uid rid f = (ReviewMutationOutcome.notOwner, []) ∧
    delete_review db uid rid = (ReviewMutationOutcome.notOwner, []) ∧
    ReviewMutationOutcome.notOwner ≠ ReviewMutationOutcome.notFound ∧
    (∀ (db2 : DB) (uid2 rid2 : Nat) (f2 : ReviewForm),
      get_review_by_id db2 rid2 = none →
        edit_review db2 uid2 rid2 f2 = (ReviewMutationOutcome.notFound, []) ∧
        delete_review db2 uid2 rid2 = (ReviewMutationOutcome.notFound, [])) := by
  refine ⟨?_, ?_, by decide, ?_⟩
  · unfold edit_review
    rw [hr]
    simp [hno]
  · unfold delete_review
    rw [hr]
    simp [hno]
  · intro db2 uid2 rid2 f2 hnone
    constructor
    · unfold edit_review
      rw [hnone]
    · unfold delete_review
      rw [hnone]

/-- Witness for C6: user 1 attempting to edit or delete user 2's review is
answered with the ownership failure and no effect. -/
theorem review_mutation_requires_ownership_witness :
    edit_review dbOwned 1 100 {} = (ReviewMutationOutcome.notOwner, []) ∧
    delete_review dbOwned 1 100 = (ReviewMutationOutcome.notOwner, []) :=
  have h := review_mutation_requires_ownership dbOwned 1 100 {} ownedReview
    (by decide) (by decide)
  ⟨h.1, h.2.1⟩

/-- C8: attempting to create a second review by the same user on the same
movie makes the stored-procedure call raise; the rollback in
`execute_procedure` leaves the database state exactly as before, so no
existing row is mutated. -/
theorem create_review_duplicate_fails (db : DB) (uid mid newId : Nat) (score : ℚ)
    (title content : String)
    (h : ∃ r ∈ db.reviews, r.user_id = uid ∧ r.movie_id = some mid) :
    (∃ e, (create_review db uid score title content (some mid) none newId).1 =
        Except.error e) ∧
    (create_review db uid score title content (some mid) none newId).2 = db := by
  obtain ⟨r, hr, h1, h2⟩ := h
  have hany : (db.reviews.any (fun r =>
      decide (r.user_id = uid ∧
        ((some mid ≠ none ∧ r.movie_id = some mid) ∨
          ((none : Option Nat) ≠ none ∧ r.show_id = none))))) = true := by
    rw [List.any_eq_true]
    refine ⟨r, hr, ?_⟩
    simp [h1, h2]
  unfold create_review execute_procedure sp_add_review
  simp only [hany, if_true]
  exact ⟨⟨"duplicate review for this user and content item", rfl⟩, trivial⟩

/-- Witness for C8: user 2 already reviewed movie 10 in `dbPref`, so a
second attempt raises and the state is unchanged. -/
theorem create_review_duplicate_fails_witness :
    (∃ e, (create_review dbPref 2 5 "t" "c" (some 10) none 99).1 = Except.error e) ∧
    (create_review dbPref 2 5 "t" "c" (some 10) none 99).2 = dbPref :=
  create_review_duplicate_fails dbPref 2 10 99 5 "t" "c" (by decide)

/-- True when the effect is a `createUser` persistence call. -/
def isCreateUserEffect : Effect → Bool
  | Effect.createUser _ _ => true
  | _ => false

/-- True when the effect writes a session key. -/
def isSetSessionEffect : Effect → Bool
  | Effect.setSession _ _ => true
  | _ => false

/-- Case split on the register handler: either it rejects with no effects,
or the duplicate-email lookup found nothing and it submits the single
user-creation effect. -/
theorem register_cases (db : DB) (f : RegisterForm) :
    ((register db f).1 ≠ RegisterOutcome.submitted ∧ (register db f).2 = []) ∨
    (get_user_by_email db (f.email.getD "") = none ∧
      (register db f).2 = [Effect.createUser (f.name.getD "") (f.email.getD "")]) := by
  unfold register
  split_ifs with h1 h2 h3
  · exact Or.inl ⟨by simp, rfl⟩
  · exact Or.inl ⟨by simp, rfl⟩
  · exact Or.inl ⟨by simp, rfl⟩
  · rcases hu : get_user_by_email db (f.email.getD "") with _ | u
    · exact Or.inr ⟨rfl, rfl⟩
    · exact Or.inl ⟨by simp, rfl⟩

/-- C9: registering with an email that already belongs to a user is
rejected before `User.create_user` is invoked, and no branch of the
registration handler ever writes a session key. -/
theorem register_duplicate_email_no_session (db : DB) (f : RegisterForm) :
    ((∃ e u, f.email = some e ∧ get_user_by_email db e = some u) →
      (register db f).1 ≠ RegisterOutcome.submitted ∧
      ∀ eff ∈ (register db f).2, isCreateUserEffect eff = false) ∧
    (∀ eff ∈ (register db f).2, isSetSessionEffect eff = false) := by
  rcases register_cases db f with ⟨hno, heff⟩ | ⟨hnone, heff⟩
  · constructor
    · intro _
      refine ⟨hno, ?_⟩
      rw [heff]
      intro eff h
      exact absurd h (List.not_mem_nil eff)
    · rw [heff]
      intro eff h
      exact absurd h (List.not_mem_nil eff)
  · constructor
    · rintro ⟨e, u, he, hue⟩
      rw [he] at hnone
      simp only [Option.getD_some] at hnone
      rw [hnone] at hue
      exact absurd hue (by simp)
    · rw [heff]
      intro eff h
      rw [List.mem_singleton] at h
      rw [h]
      rfl

/-- User row for the C9 witness database. -/
def existingUser : UserRow := { user_id := 7, name := "Bob", email := "bob@mail.test" }

/-- Database with one registered user, for the C9 witness. -/
def dbUsers : DB := { users := [existingUser] }

/-- Witness for C9: registering with the already-registered email is not
accepted and issues no user-creation and no session effect. -/
theorem register_duplicate_email_no_session_witness :
    (register dbUsers
      { name := some "Alice", email := some "bob@mail.test",
        password := some "pw", confirm_password := some "pw" }).1 ≠
      RegisterOutcome.submitted :=
  ((register_duplicate_email_no_session dbUsers _).1
    ⟨"bob@mail.test", existingUser, rfl, by decide⟩).1

/-- Movie of the LIKE-wildcard counterexample. -/
def movieAbc : MovieRow := { movie_id := 1, title := "abc" }

/-- Database with a single movie titled "abc". -/
def dbLike : DB := { movies := [movieAbc] }

/-- C7 (amended): the filtered movie listing contains exactly the movies
passing the assembled WHERE clause — at least one association to a truthy
genre filter, and a case-insensitive `LIKE` match of the title against
`%search%`, with `%` and `_` in the search string acting as wildcards —
combined with AND semantics, and the result is ordered alphabetically by
title under the case-insensitive collation. -/
theorem get_movies_filtered_spec (db : DB) (gid : Option Nat) (q : Option String) :
    (∀ m : MovieRow, m ∈ get_movies_filtered db gid q ↔
        m ∈ db.movies ∧ movieMatchesFilters db gid q m = true) ∧
    (∀ (m : MovieRow) (g : Nat), gid = some g → g ≠ 0 →
        m ∈ get_movies_filtered db gid q →
        ∃ mg ∈ db.movie_genres, mg.movie_id = m.movie_id ∧ mg.genre_id = g) ∧
    (∀ m : MovieRow, truthyStr q = true → m ∈ get_movies_filtered db gid q →
        sqlLike m.title ("%" ++ q.getD "" ++ "%") = true) ∧
    List.Sorted titleBefore (get_movies_filtered db gid q) ∧
    List.Perm (get_movies_filtered db gid q)
      (db.movies.filter (movieMatchesFilters db gid q)) := by
  have hmem : ∀ m : MovieRow, m ∈ get_movies_filtered db gid q ↔
      m ∈ db.movies ∧ movieMatchesFilters db gid q m = true := by
    intro m
    unfold get_movies_filtered
    rw [List.mem_insertionSort, List.mem_filter]
  refine ⟨hmem, ?_, ?_, List.sorted_insertionSort _ _, List.perm_insertionSort _ _⟩
  · intro m g hg hg0 hm
    have h2 := ((hmem m).mp hm).2
    unfold movieMatchesFilters at h2
    rw [Bool.and_eq_true] at h2
    have h3 := h2.1
    rw [hg] at h3
    have h4 : (if g = 0 then true
        else db.movie_genres.any fun mg =>
          decide (mg.movie_id = m.movie_id ∧ mg.genre_id = g)) = true := h3
    rw [if_neg hg0] at h4
    rw [List.any_eq_true] at h4
    obtain ⟨mg, hmg, hpred⟩ := h4
    rw [decide_eq_true_eq] at hpred
    exact ⟨mg, hmg, hpred⟩
  · intro m hq hm
    have h2 := ((hmem m).mp hm).2
    unfold movieMatchesFilters at h2
    rw [Bool.and_eq_true] at h2
    have h3 := h2.2
    rw [if_pos hq] at h3
    exact h3

/-- Witness for the amended C7: the listing filtered by the search string
with a wildcard is sorted by title. -/
theorem get_movies_filtered_spec_witness :
    List.Sorted titleBefore (get_movies_filtered dbLike none (some "a_c")) :=
  (get_movies_filtered_spec dbLike none (some "a_c")).2.2.2.1

/-- Counterexample to C7 as stated: with the text filter "a_c", the movie
titled "abc" is returned — the SQL `LIKE` treats the underscore as a
single-character wildcard — even though "abc" does not contain "a_c" as a
substring. -/
theorem get_movies_filtered_claim_false :
    get_movies_filtered dbLike none (some "a_c") = [movieAbc] ∧
    specTitleContains movieAbc.title "a_c" = false := by decide

/-- Movie with four reviews of score 1, for the popularity comparison. -/
def movieManyLow : MovieRow := { movie_id := 1, title := "ManyLow" }

/-- Movie with one review of score 5, for the popularity comparison. -/
def movieFewHigh : MovieRow := { movie_id := 2, title := "FewHigh" }

/-- Database state on which the two popularity formulas rank the same two
movies in opposite orders. -/
def dbPop : DB :=
  { movies := [movieManyLow, movieFewHigh],
    reviews :=
      [{ review_id := 21, user_id := 2, movie_id := some 1, score := 1 },
       { review_id := 22, user_id := 3, movie_id := some 1, score := 1 },
       { review_id := 23, user_id := 4, movie_id := some 1, score := 1 },
       { review_id := 24, user_id := 5, movie_id := some 1, score := 1 },
       { review_id := 25, user_id := 2, movie_id := some 2, score := 5 }] }

unseal Rat.mul Rat.inv Rat.add Rat.sub in
/-- C10: the movie-detail query annotates with
`COUNT * 0.7 + AVG * 0.3` (3.1 and 2.2 here, ranking movie 1 first), while
the analytics ranking computes `COUNT * COALESCE(AVG, 0)` (4 and 5 here)
and returns movie 2 first: the two screens rank the same data by different
popularity definitions. -/
theorem popularity_formulas_diverge :
    (get_movie_by_id dbPop 1).map (fun x => x.2.2.2) =
      some (some ((4 : ℚ) * (7 / 10) + 1 * (3 / 10))) ∧
    (get_movie_by_id dbPop 2).map (fun x => x.2.2.2) =
      some (some ((1 : ℚ) * (7 / 10) + 5 * (3 / 10))) ∧
    (get_popular_movies dbPop).map (fun p => (p.content_id, p.popularity_score)) =
      [(2, (1 : ℚ) * 5), (1, (4 : ℚ) * 1)] ∧
    ((1 : ℚ) * (7 / 10) + 5 * (3 / 10) < (4 : ℚ) * (7 / 10) + 1 * (3 / 10)) ∧
    ((4 : ℚ) * 1 < (1 : ℚ) * 5) := by decide

/-- Supporting characterization: the annotation columns of
`Movie.get_movie_by_id` are the movie's review count, its average rating,
and the popularity formula `COUNT * 0.7 + AVG * 0.3` applied to them. -/
theorem get_movie_by_id_popularity_formula (db : DB) (mid : Nat)
    (x : MovieRow × Nat × Option ℚ × Option ℚ) (h : get_movie_by_id db mid = some x) :
    x.2.1 = specMovieReviewCount db mid ∧
    x.2.2.1 = specMovieAvgRating db mid ∧
    x.2.2.2 = (specMovieAvgRating db mid).map
      (fun a => (specMovieReviewCount db mid : ℚ) * (7 / 10) + a * (3 / 10)) := by
  unfold get_movie_by_id at h
  rcases hh : (db.movies.filter fun m => decide (m.movie_id = mid)).head? with _ | m
  · rw [hh] at h
    exact absurd h (by simp)
  · rw [hh] at h
    simp only [Option.map_some'] at h
    rw [Option.some_inj] at h
    rw [← h]
    exact ⟨rfl, rfl, rfl⟩
